import Mathlib

/-!
Verification of the duplicate-detection engine of a vehicle-registration
service.  The embedding below translates, from the TypeScript source:

* `EmbeddingService.normalizeDataForEmbedding`, `calculateCosineSimilarity`
  and `findSimilarEmbeddings` (`src/services/embeddingService.ts`);
* `RegistrationRepository.getAllRegistrationsWithEmbeddings` and
  `findByLicensePlate` (`src/database/repositories/registrationRepository.ts`);
* `DuplicateDetectionService.detectDuplicate`, `checkLicensePlateOnly` and
  `generateConfirmationMessage` (`src/services/duplicateDetectionService.ts`).

Vectors of floating-point numbers are modelled as `List ℝ`; thrown JS
exceptions are modelled with `Except String`; the external collaborators
(OpenAI embedding gateway, MongoDB collection) are modelled as an
environment record holding the outcome each external call would produce
during one `detectDuplicate` invocation.
-/

/-- JS string value semantics: a field value is absent (`undefined`) or a
string; JS truthiness for strings is non-emptiness. -/
def truthy : Option String → Bool
  | none => false
  | some s => s ≠ ""

/-- JS `a || b`: the first operand when truthy, otherwise the second. -/
def jsOr (a b : Option String) : Option String :=
  if truthy a then a else b

/-- JS `.replace(/\s+/g, '')`: remove every whitespace character. -/
def stripWs (s : String) : String :=
  ⟨s.data.filter (fun c => !c.isWhitespace)⟩

/-- JS `.toUpperCase()`, character by character. -/
def jsToUpper (s : String) : String :=
  ⟨s.data.map Char.toUpper⟩

/-- JS `.toLowerCase()`, character by character. -/
def jsToLower (s : String) : String :=
  ⟨s.data.map Char.toLower⟩

/-- JS `.trim()`: strip leading and trailing whitespace. -/
def jsTrim (s : String) : String :=
  ⟨((s.data.dropWhile Char.isWhitespace).reverse.dropWhile Char.isWhitespace).reverse⟩

/-- AST of the regular-expression fragment modelled for the unescaped
pattern that `findByLicensePlate` builds with
`new RegExp('^' + normalizedPlate + '$', 'i')`. -/
inductive Regex where
  | nul
  | eps
  | char (c : Char)
  | dot
  | seq (r₁ r₂ : Regex)
  | alt (r₁ r₂ : Regex)
  | star (r : Regex)
deriving DecidableEq, Repr

/-- Whether a regex accepts the empty word. -/
def nullable : Regex → Bool
  | .nul => false
  | .eps => true
  | .char _ => false
  | .dot => false
  | .seq r₁ r₂ => nullable r₁ && nullable r₂
  | .alt r₁ r₂ => nullable r₁ || nullable r₂
  | .star _ => true

/-- Brzozowski derivative of a regex by one character. -/
def derivR : Regex → Char → Regex
  | .nul, _ => .nul
  | .eps, _ => .nul
  | .char c, d => if c = d then .eps else .nul
  | .dot, _ => .eps
  | .seq r₁ r₂, d =>
    if nullable r₁ then .alt (.seq (derivR r₁ d) r₂) (derivR r₂ d)
    else .seq (derivR r₁ d) r₂
  | .alt r₁ r₂, d => .alt (derivR r₁ d) (derivR r₂ d)
  | .star r, d => .seq (derivR r d) (.star r)

/-- Full-word matching by iterated derivatives: the source's pattern is
anchored `^...$`, so the test is a full match of the value. -/
def matchesRegex : Regex → List Char → Bool
  | r, [] => nullable r
  | r, c :: cs => matchesRegex (derivR r c) cs

/-- Postfix quantifiers `*`, `+`, `?` on the preceding atom. -/
def parsePostfix : Regex → List Char → Regex × List Char
  | r, '*' :: rest => parsePostfix (.star r) rest
  | r, '+' :: rest => parsePostfix (.seq r (.star r)) rest
  | r, '?' :: rest => parsePostfix (.alt r .eps) rest
  | r, cs => (r, cs)

mutual
/-- One atom of the pattern: a group, `.`, a punctuation escape, or a
literal character.  Character classes, quantifier braces, inner anchors,
alphanumeric escapes (classes such as `\d`) and stray metacharacters are
outside the modelled fragment and make compilation fail. -/
def parseAtom : Nat → List Char → Option (Regex × List Char)
  | 0, _ => none
  | _ + 1, [] => none
  | fuel + 1, c :: rest =>
    if c = '(' then
      match parseAlt fuel rest with
      | some (r, d :: rest') => if d = ')' then some (r, rest') else none
      | _ => none
    else if c = '.' then some (.dot, rest)
    else if c = '\\' then
      match rest with
      | [] => none
      | d :: rest' => if d.isAlphanum then none else some (.char d, rest')
    else if c = '*' ∨ c = '+' ∨ c = '?' ∨ c = '|' ∨ c = ')' ∨ c = '[' ∨ c = ']' ∨
        c = '{' ∨ c = '}' ∨ c = '^' ∨ c = '$' then none
    else some (.char c, rest)
/-- A concatenation of quantified atoms. -/
def parseConcat : Nat → Regex → List Char → Option (Regex × List Char)
  | 0, _, _ => none
  | fuel + 1, acc, cs =>
    match parseAtom fuel cs with
    | none => some (acc, cs)
    | some (r, rest) =>
      match parsePostfix r rest with
      | (r', rest') => parseConcat fuel (.seq acc r') rest'
/-- An alternation of concatenations. -/
def parseAlt : Nat → List Char → Option (Regex × List Char)
  | 0, _ => none
  | fuel + 1, cs =>
    match parseConcat fuel .eps cs with
    | none => none
    | some (r, rest) =>
      match rest with
      | '|' :: rest' =>
        match parseAlt fuel rest' with
        | none => none
        | some (r₂, rest₂) => some (.alt r r₂, rest₂)
      | _ => some (r, rest)
end

/-- Compile the body of `'^' + key + '$'`: the whole key must parse and be
consumed.  A failure models `new RegExp` throwing on an invalid pattern
(constructs outside the modelled fragment are conservatively treated as
compilation failures as well). -/
def compileAnchoredRegex (key : String) : Option Regex :=
  match parseAlt (4 * (key.data.length + 1)) key.data with
  | some (r, []) => some r
  | _ => none

/-- The nested `car` object of a conversation record
(`car.type`, `car.manufacturer`, `car.model`, `car.year`,
`car.license_plate`). -/
structure CarData where
  type : Option String := none
  manufacturer : Option String := none
  model : Option String := none
  year : Option String := none
  license_plate : Option String := none
deriving DecidableEq, Repr

/-- The nested `customer` object (`customer.name`, `customer.birthdate`). -/
structure CustomerData where
  name : Option String := none
  birthdate : Option String := none
deriving DecidableEq, Repr

/-- A `ConversationData` record: both the nested shape (`car`, `customer`)
and the flattened top-level fields probed by the source
(`car_type`, `manufacturer`, `model`, `year_of_construction`,
`license_plate`, `customer_name`, `birthdate`), plus the camelCase
`licensePlate` key read by `checkLicensePlateOnly`. -/
structure ConversationData where
  car : Option CarData := none
  customer : Option CustomerData := none
  car_type : Option String := none
  manufacturer : Option String := none
  model : Option String := none
  year_of_construction : Option String := none
  license_plate : Option String := none
  customer_name : Option String := none
  birthdate : Option String := none
  licensePlate : Option String := none
deriving DecidableEq, Repr

/-- One `if (v) normalized.push(label + ": " + v)` step of
`normalizeDataForEmbedding`. -/
def entry (label : String) (v : Option String) : List String :=
  match v with
  | none => []
  | some s => if s = "" then [] else [label ++ ": " ++ s]

/-- The license-plate push: value uppercased and whitespace-stripped. -/
def plateEntry (v : Option String) : List String :=
  match v with
  | none => []
  | some s => if s = "" then [] else ["License Plate: " ++ stripWs (jsToUpper s)]

/-- The customer-name push: value lowercased and trimmed. -/
def nameEntry (v : Option String) : List String :=
  match v with
  | none => []
  | some s => if s = "" then [] else ["Customer: " ++ jsTrim (jsToLower s)]

/-- The `normalized` array built by `normalizeDataForEmbedding`: nested car
section, then flat car section, then nested customer section, then flat
customer section, in the source's push order. -/
def normalizedEntries (data : ConversationData) : List String :=
  (match data.car with
   | some car =>
       entry "Car Type" car.type ++ entry "Manufacturer" car.manufacturer ++
       entry "Model" car.model ++ entry "Year" car.year ++
       plateEntry car.license_plate
   | none => []) ++
  (entry "Car Type" data.car_type ++ entry "Manufacturer" data.manufacturer ++
   entry "Model" data.model ++ entry "Year" data.year_of_construction ++
   plateEntry data.license_plate) ++
  (match data.customer with
   | some c => nameEntry c.name ++ entry "Birthdate" c.birthdate
   | none => []) ++
  (nameEntry data.customer_name ++ entry "Birthdate" data.birthdate)

/-- `normalizeDataForEmbedding`: join with `", "`, falling back to the
sentinel when the join is empty (`normalized.join(', ') || 'No data
available'`). -/
def normalizeDataForEmbedding (data : ConversationData) : String :=
  let joined := String.intercalate ", " (normalizedEntries data)
  if joined = "" then "No data available" else joined

/-- The nested-car section of the emitted entry list. -/
def nestedCarEntries (data : ConversationData) : List String :=
  match data.car with
  | some car =>
      entry "Car Type" car.type ++ entry "Manufacturer" car.manufacturer ++
      entry "Model" car.model ++ entry "Year" car.year ++
      plateEntry car.license_plate
  | none => []

/-- The flat-car section of the emitted entry list. -/
def flatCarEntries (data : ConversationData) : List String :=
  entry "Car Type" data.car_type ++ entry "Manufacturer" data.manufacturer ++
  entry "Model" data.model ++ entry "Year" data.year_of_construction ++
  plateEntry data.license_plate

/-- The nested-customer section of the emitted entry list. -/
def nestedCustomerEntries (data : ConversationData) : List String :=
  match data.customer with
  | some c => nameEntry c.name ++ entry "Birthdate" c.birthdate
  | none => []

/-- The flat-customer section of the emitted entry list. -/
def flatCustomerEntries (data : ConversationData) : List String :=
  nameEntry data.customer_name ++ entry "Birthdate" data.birthdate

/-- Both strings occur in the record's emitted entry list, the first one
strictly before the second. -/
def emittedTwice (data : ConversationData) (eNested eFlat : String) : Prop :=
  ∃ pre mid post, normalizedEntries data = pre ++ eNested :: (mid ++ eFlat :: post)

noncomputable section

/-- The accumulated `dotProduct` of the loop in `calculateCosineSimilarity`
(also, with `a = b`, the accumulated `normA`/`normB` before `Math.sqrt`). -/
def dotList (a b : List ℝ) : ℝ :=
  (List.zipWith (· * ·) a b).sum

/-- `Math.sqrt` of the accumulated sum of squares: the Euclidean norm. -/
def normList (a : List ℝ) : ℝ :=
  Real.sqrt (dotList a a)

/-- `calculateCosineSimilarity`: throws on dimension mismatch, returns `0`
when either norm is zero, otherwise `dot / (normA * normB)`. -/
def calculateCosineSimilarity (vectorA vectorB : List ℝ) : Except String ℝ :=
  if vectorA.length ≠ vectorB.length then
    .error "Vectors must have the same dimension"
  else if normList vectorA = 0 ∨ normList vectorB = 0 then
    .ok 0
  else
    .ok (dotList vectorA vectorB / (normList vectorA * normList vectorB))

/-- The candidate loop of `findSimilarEmbeddings`: score every candidate in
order (a thrown dimension mismatch aborts the whole call) and keep those
with `similarity >= threshold`, in input order. -/
def collectSimilar (targetEmbedding : List ℝ) (threshold : ℝ) :
    List (String × List ℝ) → Except String (List (String × ℝ))
  | [] => .ok []
  | c :: rest =>
    match calculateCosineSimilarity targetEmbedding c.2 with
    | .error e => .error e
    | .ok similarity =>
      match collectSimilar targetEmbedding threshold rest with
      | .error e => .error e
      | .ok tail =>
        .ok (if threshold ≤ similarity then (c.1, similarity) :: tail else tail)

/-- `findSimilarEmbeddings`: retained candidates sorted by similarity
descending (`results.sort((a, b) => b.similarity - a.similarity)`). -/
def findSimilarEmbeddings (targetEmbedding : List ℝ)
    (candidateEmbeddings : List (String × List ℝ)) (threshold : ℝ) :
    Except String (List (String × ℝ)) :=
  (collectSimilar targetEmbedding threshold candidateEmbeddings).map
    (fun results => results.mergeSort (fun p q => decide (q.2 ≤ p.2)))

/-- An `EmbeddingData` value: the stored vector (model tag and timestamp
carry no logic and are omitted). -/
structure EmbeddingData where
  vector : List ℝ

/-- A stored registration as surfaced by the repository: opaque id, its
conversation data, and optionally an embedding. -/
structure Registration where
  id : String
  conversationData : ConversationData
  embedding : Option EmbeddingData

/-- `new RegExp('^' + key + '$', 'i').test(value)` on an optional stored
field: the value is uppercased and matched in full.  The compiled pattern's
literal characters are already uppercase (the key is built with
`toUpperCase()`), so uppercasing the value realizes the `i` flag. -/
def plateRegexMatch (rgx : Regex) (v : Option String) : Bool :=
  match v with
  | none => false
  | some s => matchesRegex rgx (jsToUpper s).data

/-- The `$or` filter of `findByLicensePlate`: either the camelCase
`conversationData.licensePlate` or the snake_case
`conversationData.license_plate` field matches the compiled pattern. -/
def matchesPlateQuery (rgx : Regex) (r : Registration) : Bool :=
  plateRegexMatch rgx r.conversationData.licensePlate ||
  plateRegexMatch rgx r.conversationData.license_plate

/-- Environment of one `detectDuplicate` call: the outcome of the embedding
gateway call for the input record, the outcome of reading the registration
collection for `getAllRegistrationsWithEmbeddings`, the outcome of reading
it for `findByLicensePlate`, and the configured similarity threshold. -/
structure Env where
  embedResult : Except String (List ℝ)
  store : Except String (List Registration)
  plateStore : Except String (List Registration)
  similarityThreshold : ℝ

/-- `getAllRegistrationsWithEmbeddings`: mongo filter
`{'embedding.vector': {$exists: true}}`; a failed query is rethrown as a
repository error. -/
def getAllRegistrationsWithEmbeddings (store : Except String (List Registration)) :
    Except String (List Registration) :=
  match store with
  | .error _ => .error "Failed to get registrations with embeddings"
  | .ok docs => .ok (docs.filter (fun r => r.embedding.isSome))

/-- `findByLicensePlate`: uppercase and whitespace-strip the query (the
stored values are not normalized), build the anchored case-insensitive
regex from that key, and filter the collection with it; a failed query or
an invalid pattern is rethrown as the repository error. -/
def findByLicensePlate (store : Except String (List Registration))
    (licensePlate : String) : Except String (List Registration) :=
  match store with
  | .error _ => .error "Failed to find registration by license plate"
  | .ok docs =>
    let normalizedPlate := stripWs (jsToUpper licensePlate)
    match compileAnchoredRegex normalizedPlate with
    | none => .error "Failed to find registration by license plate"
    | some rgx => .ok (docs.filter (matchesPlateQuery rgx))

/-- `DuplicateDetectionResult`. -/
structure DuplicateDetectionResult where
  isDuplicate : Bool
  similarityScore : Option ℝ
  existingRegistrationId : Option String
  requiresConfirmation : Bool

/-- The `{isDuplicate: false, requiresConfirmation: false}` literal. -/
def noDuplicate : DuplicateDetectionResult :=
  ⟨false, none, none, false⟩

/-- Plate extraction of `checkLicensePlateOnly`:
`car?.license_plate || conversationData.license_plate ||
conversationData.licensePlate`, guarded by `if (licensePlate)`. -/
def extractLicensePlate (data : ConversationData) : Option String :=
  let v := jsOr (data.car.bind (·.license_plate)) (jsOr data.license_plate data.licensePlate)
  if truthy v then v else none

/-- `checkLicensePlateOnly`: exact-plate fallback; its own catch turns any
lookup failure into the no-duplicate result, so the method never throws. -/
def checkLicensePlateOnly (env : Env) (data : ConversationData) :
    Except String DuplicateDetectionResult :=
  match extractLicensePlate data with
  | none => .ok noDuplicate
  | some plate =>
    match findByLicensePlate env.plateStore plate with
    | .error _ => .ok noDuplicate
    | .ok [] => .ok noDuplicate
    | .ok (m :: _) => .ok ⟨true, some 1, some m.id, true⟩

/-- `reg.embedding?.vector && reg.embedding.vector.length > 0`. -/
def hasNonemptyVector (r : Registration) : Bool :=
  match r.embedding with
  | none => false
  | some e => e.vector.length > 0

/-- `reg.embedding!.vector`. -/
def vectorOf (r : Registration) : List ℝ :=
  match r.embedding with
  | none => []
  | some e => e.vector

/-- `detectDuplicate`: embed the record (falling back to the plate check on
gateway failure), fetch stored candidates, short-circuit on an empty set,
rank the candidates, and either report the top hit or fall back to the
plate check; the outer catch turns any other error — including a Scorer
dimension mismatch — into the plate-check fallback. -/
def detectDuplicate (env : Env) (data : ConversationData) :
    Except String DuplicateDetectionResult :=
  match env.embedResult with
  | .error _ => checkLicensePlateOnly env data
  | .ok newVector =>
    match getAllRegistrationsWithEmbeddings env.store with
    | .error _ => checkLicensePlateOnly env data
    | .ok existingRegistrations =>
      if existingRegistrations.length = 0 then
        .ok noDuplicate
      else
        let candidateEmbeddings :=
          (existingRegistrations.filter hasNonemptyVector).map
            (fun r => (r.id, vectorOf r))
        if candidateEmbeddings.length > 0 then
          match findSimilarEmbeddings newVector candidateEmbeddings
              env.similarityThreshold with
          | .error _ => checkLicensePlateOnly env data
          | .ok [] => checkLicensePlateOnly env data
          | .ok (mostSimilar :: _) =>
            .ok ⟨true, some mostSimilar.2, some mostSimilar.1, true⟩
        else
          checkLicensePlateOnly env data

end

/-- `generateConfirmationMessage`: a fixed string. -/
def generateConfirmationMessage : String :=
  "A similar registration was found in our system. " ++
  "Would you like to update the existing information? " ++
  "Please confirm by saying \"yes\" or \"confirm\"."

noncomputable section

/-- A stored registration whose embedding has dimension 2. -/
def mismatchRegistration : Registration :=
  ⟨"existing-1", {}, some ⟨[1, 0]⟩⟩

/-- An environment forcing a Scorer dimension mismatch: the gateway returns
a 1-dimensional query vector while the lone stored candidate carries a
2-dimensional embedding; the plate store is empty. -/
def envMismatch : Env :=
  ⟨.ok [1], .ok [mismatchRegistration], .ok [], 0.85⟩

/-- A stored registration carrying plate `"AB12"` and no embedding. -/
def plateRegistration : Registration :=
  ⟨"reg-1", { license_plate := some "AB12" }, none⟩

/-- An environment whose embedding-gateway call fails and whose collection
holds `plateRegistration`. -/
def envEmbedFail : Env :=
  ⟨.error "gateway timeout", .ok [plateRegistration], .ok [plateRegistration], 0.85⟩

/-- A query record carrying plate `"ab 12"` in the flat snake_case field. -/
def plateQueryRec : ConversationData :=
  { license_plate := some "ab 12" }

/-- An environment with an empty candidate corpus but a stored record whose
plate matches `plateQueryRec`, reachable only through the fallback. -/
def envEmptyCorpus : Env :=
  ⟨.ok [1], .ok [], .ok [plateRegistration], 0.85⟩

/-- A stored registration whose plate contains an inner space. -/
def spacedPlateRegistration : Registration :=
  ⟨"reg-2", { license_plate := some "AB 12" }, none⟩

/-- A stored registration whose plate `"AB1"` is matched by the
metacharacter query `"A.1"`. -/
def dotPlateRegistration : Registration :=
  ⟨"reg-3", { license_plate := some "AB1" }, none⟩

/-- An environment whose plate store holds only `spacedPlateRegistration`. -/
def envSpacedPlate : Env :=
  ⟨.error "e", .ok [], .ok [spacedPlateRegistration], 0.85⟩

/-- An environment whose plate store holds only `dotPlateRegistration`. -/
def envParenPlate : Env :=
  ⟨.error "e", .ok [], .ok [dotPlateRegistration], 0.85⟩

/-- A query record whose plate is an invalid regex pattern. -/
def parenPlateQuery : ConversationData :=
  { license_plate := some "A(" }

end

/-- A record carrying the same logical car and customer fields purely in the
nested shape (`car.*`, `customer.*`). -/
def nestedShapeRecord (t m mo y p n b : Option String) : ConversationData :=
  { car := some ⟨t, m, mo, y, p⟩, customer := some ⟨n, b⟩ }

/-- The same logical fields purely in the flattened top-level shape probed
by the normalizer (`car_type`, `manufacturer`, `model`,
`year_of_construction`, `license_plate`, `customer_name`, `birthdate`). -/
def flatShapeRecord (t m mo y p n b : Option String) : ConversationData :=
  { car_type := t, manufacturer := m, model := mo, year_of_construction := y,
    license_plate := p, customer_name := n, birthdate := b }

/-- A record whose manufacturer is present in both the nested and the
flattened shape, with the same value. -/
def bothShapesManufacturerRec : ConversationData :=
  { car := some { manufacturer := some "Honda" }, manufacturer := some "Honda" }

/-- The same record with the manufacturer only in the nested shape. -/
def nestedOnlyManufacturerRec : ConversationData :=
  { car := some { manufacturer := some "Honda" } }

/-- A record carrying a license plate in the nested shape. -/
def nestedPlateRec : ConversationData :=
  { car := some { license_plate := some "AB 12" } }

/-- A record carrying the same license plate under the flattened camelCase
`licensePlate` key. -/
def camelPlateRec : ConversationData :=
  { licensePlate := some "AB 12" }

/-- C5 counterexample: on a record whose manufacturer is present in both the
nested and the flattened shape with the same value "Honda", the normalizer
emits the `Manufacturer` entry twice — the canonical string is
"Manufacturer: Honda, Manufacturer: Honda", differing from the
nested-only record — so the field is double-counted, not emitted at most
once with the nested value preferred. -/
theorem normalize_double_count_cex :
    (normalizedEntries bothShapesManufacturerRec).countP
        (fun s => s == "Manufacturer: Honda") = 2 ∧
    normalizeDataForEmbedding bothShapesManufacturerRec =
      "Manufacturer: Honda, Manufacturer: Honda" ∧
    normalizeDataForEmbedding nestedOnlyManufacturerRec = "Manufacturer: Honda" :=
  ⟨rfl, rfl, rfl⟩

/-- C5 (amended): in any record, whenever a recognized logical field is
present (truthy) in both the nested and the flattened shape, the normalizer
emits both values into the canonical entry list — the nested one strictly
before the flat one — rather than preferring the nested value and emitting
the field once; this holds for each of the seven recognized fields. -/
theorem normalize_both_shapes_emitted (data : ConversationData) :
    (∀ car s t, data.car = some car → car.type = some s → s ≠ "" →
      data.car_type = some t → t ≠ "" →
      emittedTwice data ("Car Type: " ++ s) ("Car Type: " ++ t)) ∧
    (∀ car s t, data.car = some car → car.manufacturer = some s → s ≠ "" →
      data.manufacturer = some t → t ≠ "" →
      emittedTwice data ("Manufacturer: " ++ s) ("Manufacturer: " ++ t)) ∧
    (∀ car s t, data.car = some car → car.model = some s → s ≠ "" →
      data.model = some t → t ≠ "" →
      emittedTwice data ("Model: " ++ s) ("Model: " ++ t)) ∧
    (∀ car s t, data.car = some car → car.year = some s → s ≠ "" →
      data.year_of_construction = some t → t ≠ "" →
      emittedTwice data ("Year: " ++ s) ("Year: " ++ t)) ∧
    (∀ car s t, data.car = some car → car.license_plate = some s → s ≠ "" →
      data.license_plate = some t → t ≠ "" →
      emittedTwice data ("License Plate: " ++ stripWs (jsToUpper s))
        ("License Plate: " ++ stripWs (jsToUpper t))) ∧
    (∀ cust s t, data.customer = some cust → cust.name = some s → s ≠ "" →
      data.customer_name = some t → t ≠ "" →
      emittedTwice data ("Customer: " ++ jsTrim (jsToLower s))
        ("Customer: " ++ jsTrim (jsToLower t))) ∧
    (∀ cust s t, data.customer = some cust → cust.birthdate = some s → s ≠ "" →
      data.birthdate = some t → t ≠ "" →
      emittedTwice data ("Birthdate: " ++ s) ("Birthdate: " ++ t)) := by
  refine ⟨?_, ?_, ?_, ?_, ?_, ?_, ?_⟩
  · intro car s t hcar hs hsne ht htne
    refine ⟨[],
      entry "Manufacturer" car.manufacturer ++ entry "Model" car.model ++
        entry "Year" car.year ++ plateEntry car.license_plate,
      entry "Manufacturer" data.manufacturer ++ entry "Model" data.model ++
        entry "Year" data.year_of_construction ++ plateEntry data.license_plate ++
        nestedCustomerEntries data ++ flatCustomerEntries data, ?_⟩
    simp [normalizedEntries, nestedCustomerEntries, flatCustomerEntries,
      entry, plateEntry, nameEntry, hcar, hs, hsne, ht, htne]
  · intro car s t hcar hs hsne ht htne
    refine ⟨entry "Car Type" car.type,
      entry "Model" car.model ++ entry "Year" car.year ++
        plateEntry car.license_plate ++ entry "Car Type" data.car_type,
      entry "Model" data.model ++ entry "Year" data.year_of_construction ++
        plateEntry data.license_plate ++
        nestedCustomerEntries data ++ flatCustomerEntries data, ?_⟩
    simp [normalizedEntries, nestedCustomerEntries, flatCustomerEntries,
      entry, plateEntry, nameEntry, hcar, hs, hsne, ht, htne]
  · intro car s t hcar hs hsne ht htne
    refine ⟨entry "Car Type" car.type ++ entry "Manufacturer" car.manufacturer,
      entry "Year" car.year ++ plateEntry car.license_plate ++
        entry "Car Type" data.car_type ++ entry "Manufacturer" data.manufacturer,
      entry "Year" data.year_of_construction ++ plateEntry data.license_plate ++
        nestedCustomerEntries data ++ flatCustomerEntries data, ?_⟩
    simp [normalizedEntries, nestedCustomerEntries, flatCustomerEntries,
      entry, plateEntry, nameEntry, hcar, hs, hsne, ht, htne]
  · intro car s t hcar hs hsne ht htne
    refine ⟨entry "Car Type" car.type ++ entry "Manufacturer" car.manufacturer ++
        entry "Model" car.model,
      plateEntry car.license_plate ++ entry "Car Type" data.car_type ++
        entry "Manufacturer" data.manufacturer ++ entry "Model" data.model,
      plateEntry data.license_plate ++
        nestedCustomerEntries data ++ flatCustomerEntries data, ?_⟩
    simp [normalizedEntries, nestedCustomerEntries, flatCustomerEntries,
      entry, plateEntry, nameEntry, hcar, hs, hsne, ht, htne]
  · intro car s t hcar hs hsne ht htne
    refine ⟨entry "Car Type" car.type ++ entry "Manufacturer" car.manufacturer ++
        entry "Model" car.model ++ entry "Year" car.year,
      entry "Car Type" data.car_type ++ entry "Manufacturer" data.manufacturer ++
        entry "Model" data.model ++ entry "Year" data.year_of_construction,
      nestedCustomerEntries data ++ flatCustomerEntries data, ?_⟩
    simp [normalizedEntries, nestedCustomerEntries, flatCustomerEntries,
      entry, plateEntry, nameEntry, hcar, hs, hsne, ht, htne]
  · intro cust s t hcust hs hsne ht htne
    refine ⟨nestedCarEntries data ++ flatCarEntries data,
      entry "Birthdate" cust.birthdate, entry "Birthdate" data.birthdate, ?_⟩
    simp [normalizedEntries, nestedCarEntries, flatCarEntries,
      entry, plateEntry, nameEntry, hcust, hs, hsne, ht, htne]
  · intro cust s t hcust hs hsne ht htne
    refine ⟨nestedCarEntries data ++ flatCarEntries data ++ nameEntry cust.name,
      nameEntry data.customer_name, [], ?_⟩
    simp [normalizedEntries, nestedCarEntries, flatCarEntries,
      entry, plateEntry, nameEntry, hcust, hs, hsne, ht, htne]

/-- Witness for C5's amended theorem: the manufacturer field of
`bothShapesManufacturerRec` is emitted twice. -/
theorem normalize_both_shapes_emitted_witness :
    emittedTwice bothShapesManufacturerRec ("Manufacturer: " ++ "Honda")
      ("Manufacturer: " ++ "Honda") :=
  (normalize_both_shapes_emitted bothShapesManufacturerRec).2.1
    { manufacturer := some "Honda" } "Honda" "Honda" rfl rfl (by decide) rfl (by decide)

/-- C6 counterexample: a record with `car.license_plate = "AB 12"` (nested)
and one with `licensePlate = "AB 12"` (the flattened camelCase key named in
the claim) carry the same logical plate but do not normalize identically:
the normalizer never probes the camelCase key. -/
theorem normalize_camel_plate_cex :
    normalizeDataForEmbedding nestedPlateRec = "License Plate: AB12" ∧
    normalizeDataForEmbedding camelPlateRec = "No data available" ∧
    normalizeDataForEmbedding nestedPlateRec ≠ normalizeDataForEmbedding camelPlateRec :=
  ⟨rfl, rfl, by decide⟩

/-- C6 (amended): for the flattened shape the normalizer actually probes
(`car_type`, `manufacturer`, `model`, `year_of_construction`,
`license_plate`, `customer_name`, `birthdate`), any record in the nested
shape and the record carrying the same logical field values in that
flattened shape normalize to identical canonical strings — in particular
`car.manufacturer = "Honda"` and `manufacturer = "Honda"` normalize
identically; the camelCase flat keys `licensePlate`/`customerName` named in
the claim are not read by the normalizer. -/
theorem normalize_shape_equivalence (t m mo y p n b : Option String) :
    normalizeDataForEmbedding (nestedShapeRecord t m mo y p n b) =
    normalizeDataForEmbedding (flatShapeRecord t m mo y p n b) := by
  simp [normalizeDataForEmbedding, normalizedEntries, nestedShapeRecord, flatShapeRecord,
    entry, plateEntry, nameEntry]

/-- The zipWith dot product as a `Finset.range` sum over positions. -/
theorem dotList_eq_sum : ∀ (a b : List ℝ),
    dotList a b = ∑ i ∈ Finset.range (min a.length b.length), a.getD i 0 * b.getD i 0
  | [], b => by simp [dotList]
  | a :: as, [] => by simp [dotList]
  | x :: as, y :: bs => by
    rw [show dotList (x :: as) (y :: bs) = x * y + dotList as bs by
      simp [dotList, List.zipWith_cons_cons, List.sum_cons]]
    rw [List.length_cons, List.length_cons, Nat.succ_min_succ, Finset.sum_range_succ']
    simp only [List.getD_cons_succ, List.getD_cons_zero]
    rw [← dotList_eq_sum as bs]
    ring

/-- A vector's dot product with itself is a sum of squares. -/
theorem dotList_self_nonneg : ∀ (a : List ℝ), 0 ≤ dotList a a
  | [] => by simp [dotList]
  | x :: as => by
    have ih := dotList_self_nonneg as
    simp only [dotList, List.zipWith_cons_cons, List.sum_cons] at ih ⊢
    exact add_nonneg (mul_self_nonneg x) ih

/-- Cauchy–Schwarz for equal-length lists, squared form. -/
theorem sq_dotList_le {a b : List ℝ} (h : a.length = b.length) :
    dotList a b ^ 2 ≤ dotList a a * dotList b b := by
  rw [dotList_eq_sum a b, dotList_eq_sum a a, dotList_eq_sum b b, h, min_self]
  calc (∑ i ∈ Finset.range b.length, a.getD i 0 * b.getD i 0) ^ 2
      ≤ (∑ i ∈ Finset.range b.length, a.getD i 0 ^ 2) *
        ∑ i ∈ Finset.range b.length, b.getD i 0 ^ 2 :=
        Finset.sum_mul_sq_le_sq_mul_sq _ _ _
    _ = (∑ i ∈ Finset.range b.length, a.getD i 0 * a.getD i 0) *
        ∑ i ∈ Finset.range b.length, b.getD i 0 * b.getD i 0 := by
        simp [pow_two]

/-- Cauchy–Schwarz in the form `|dot a b| ≤ ‖a‖ * ‖b‖`. -/
theorem abs_dotList_le {a b : List ℝ} (h : a.length = b.length) :
    |dotList a b| ≤ normList a * normList b := by
  rw [show |dotList a b| = Real.sqrt (dotList a b ^ 2) from (Real.sqrt_sq_eq_abs _).symm,
    normList, normList, ← Real.sqrt_mul (dotList_self_nonneg a)]
  exact Real.sqrt_le_sqrt (sq_dotList_le h)

/-- C8: `calculateCosineSimilarity` fails with the dimension-mismatch error
exactly when the lengths differ; on equal-length vectors with non-zero
norms it returns `dot(a,b) / (‖a‖ * ‖b‖)`, which lies in `[-1, 1]`; and it
returns `0` (not an error) when either norm is zero. -/
theorem calculateCosineSimilarity_spec (a b : List ℝ) :
    (calculateCosineSimilarity a b = .error "Vectors must have the same dimension" ↔
      a.length ≠ b.length) ∧
    (a.length = b.length → normList a ≠ 0 → normList b ≠ 0 →
      calculateCosineSimilarity a b = .ok (dotList a b / (normList a * normList b)) ∧
      -1 ≤ dotList a b / (normList a * normList b) ∧
      dotList a b / (normList a * normList b) ≤ 1) ∧
    (a.length = b.length → (normList a = 0 ∨ normList b = 0) →
      calculateCosineSimilarity a b = .ok 0) := by
  refine ⟨⟨?_, ?_⟩, ?_, ?_⟩
  · intro he
    by_contra hlen
    have heq : a.length = b.length := by omega
    rw [calculateCosineSimilarity.eq_def, if_neg (fun hne => hne heq)] at he
    split at he <;> exact Except.noConfusion he
  · intro hne
    rw [calculateCosineSimilarity.eq_def, if_pos hne]
  · intro h hA hB
    have hApos : 0 < normList a := lt_of_le_of_ne (Real.sqrt_nonneg _) (Ne.symm hA)
    have hBpos : 0 < normList b := lt_of_le_of_ne (Real.sqrt_nonneg _) (Ne.symm hB)
    have habs : |dotList a b / (normList a * normList b)| ≤ 1 := by
      rw [abs_div, abs_of_pos (mul_pos hApos hBpos)]
      exact (div_le_one (mul_pos hApos hBpos)).mpr (abs_dotList_le h)
    refine ⟨?_, neg_le_of_abs_le habs, le_of_abs_le habs⟩
    rw [calculateCosineSimilarity.eq_def, if_neg (fun hne => hne h),
      if_neg (fun hor => hor.elim hA hB)]
  · intro h hzero
    rw [calculateCosineSimilarity.eq_def, if_neg (fun hne => hne h), if_pos hzero]

/-- Witness for C8 at concrete vectors: `[1]` against `[1, 0]` (mismatch),
`[1]` against `[1]` (non-zero norms), `[0]` against `[1]` (zero norm). -/
theorem calculateCosineSimilarity_spec_witness :
    calculateCosineSimilarity [(1 : ℝ)] [1, 0] = .error "Vectors must have the same dimension" ∧
    calculateCosineSimilarity [(1 : ℝ)] [1] =
      .ok (dotList [(1 : ℝ)] [1] / (normList [(1 : ℝ)] * normList [(1 : ℝ)])) ∧
    calculateCosineSimilarity [(0 : ℝ)] [1] = .ok 0 := by
  have hn1 : normList [(1 : ℝ)] = 1 := by simp [normList, dotList]
  have hn0 : normList [(0 : ℝ)] = 0 := by simp [normList, dotList]
  refine ⟨(calculateCosineSimilarity_spec [(1 : ℝ)] [1, 0]).1.mpr (by simp),
    ((calculateCosineSimilarity_spec [(1 : ℝ)] [1]).2.1 rfl (by rw [hn1]; norm_num)
      (by rw [hn1]; norm_num)).1,
    (calculateCosineSimilarity_spec [(0 : ℝ)] [1]).2.2 rfl (Or.inl hn0)⟩

/-- Every entry kept by the candidate loop scores at least the threshold and
names one of the candidates. -/
theorem collectSimilar_mem {target : List ℝ} {threshold : ℝ} :
    ∀ {cands : List (String × List ℝ)} {l : List (String × ℝ)},
      collectSimilar target threshold cands = .ok l →
      ∀ p ∈ l, threshold ≤ p.2 ∧ ∃ c ∈ cands, p.1 = c.1
  | [], l, h => by
    simp only [collectSimilar, Except.ok.injEq] at h
    subst h
    intro p hp
    exact absurd hp (List.not_mem_nil p)
  | c :: rest, l, h => by
    intro p hp
    cases hsim : calculateCosineSimilarity target c.2 with
    | error e => simp [collectSimilar, hsim] at h
    | ok similarity =>
      cases htail : collectSimilar target threshold rest with
      | error e => simp [collectSimilar, hsim, htail] at h
      | ok tail =>
        have h' : (if threshold ≤ similarity then (c.1, similarity) :: tail else tail) = l := by
          simpa only [collectSimilar, hsim, htail, Except.ok.injEq] using h
        subst h'
        by_cases hth : threshold ≤ similarity
        · rw [if_pos hth] at hp
          rcases List.mem_cons.mp hp with hcase | hcase
          · subst hcase
            exact ⟨hth, c, List.mem_cons_self c rest, rfl⟩
          · have hrec := collectSimilar_mem htail p hcase
            exact ⟨hrec.1, hrec.2.imp (fun d hd => ⟨List.mem_cons_of_mem c hd.1, hd.2⟩)⟩
        · rw [if_neg hth] at hp
          have hrec := collectSimilar_mem htail p hp
          exact ⟨hrec.1, hrec.2.imp (fun d hd => ⟨List.mem_cons_of_mem c hd.1, hd.2⟩)⟩

/-- Raising the threshold shrinks the kept entries to a sublist; the loop's
success or failure is unchanged. -/
theorem collectSimilar_mono {target : List ℝ} {threshold threshold' : ℝ}
    (hth : threshold ≤ threshold') :
    ∀ {cands : List (String × List ℝ)} {l : List (String × ℝ)},
      collectSimilar target threshold cands = .ok l →
      ∃ l', collectSimilar target threshold' cands = .ok l' ∧ l'.Sublist l
  | [], l, h => by
    simp only [collectSimilar, Except.ok.injEq] at h
    subst h
    exact ⟨[], rfl, List.Sublist.refl []⟩
  | c :: rest, l, h => by
    cases hsim : calculateCosineSimilarity target c.2 with
    | error e => simp [collectSimilar, hsim] at h
    | ok similarity =>
      cases htail : collectSimilar target threshold rest with
      | error e => simp [collectSimilar, hsim, htail] at h
      | ok tail =>
        have h' : (if threshold ≤ similarity then (c.1, similarity) :: tail else tail) = l := by
          simpa only [collectSimilar, hsim, htail, Except.ok.injEq] using h
        obtain ⟨tail', htail', hsub⟩ := collectSimilar_mono hth htail
        subst h'
        by_cases h2 : threshold' ≤ similarity
        · have h1 : threshold ≤ similarity := le_trans hth h2
          refine ⟨(c.1, similarity) :: tail', ?_, ?_⟩
          · simp only [collectSimilar, hsim, htail']
            rw [if_pos h2]
          · rw [if_pos h1]
            exact List.Sublist.cons₂ _ hsub
        · refine ⟨tail', ?_, ?_⟩
          · simp only [collectSimilar, hsim, htail']
            rw [if_neg h2]
          · by_cases h1 : threshold ≤ similarity
            · rw [if_pos h1]; exact List.Sublist.cons _ hsub
            · rw [if_neg h1]; exact hsub

/-- C7: a successful `findSimilarEmbeddings` result contains only entries
with similarity at least the threshold, is sorted by similarity descending,
and raising the threshold never increases the number of returned entries
for fixed inputs. -/
theorem findSimilarEmbeddings_spec (target : List ℝ) (cands : List (String × List ℝ))
    (threshold : ℝ) (l : List (String × ℝ))
    (h : findSimilarEmbeddings target cands threshold = .ok l) :
    (∀ p ∈ l, threshold ≤ p.2) ∧
    l.Pairwise (fun p q => q.2 ≤ p.2) ∧
    (∀ t', threshold ≤ t' →
      ∃ l', findSimilarEmbeddings target cands t' = .ok l' ∧ l'.length ≤ l.length) := by
  rw [findSimilarEmbeddings] at h
  cases hc : collectSimilar target threshold cands with
  | error e => rw [hc] at h; exact Except.noConfusion h
  | ok l0 =>
    rw [hc] at h
    simp only [Except.map, Except.ok.injEq] at h
    subst h
    refine ⟨?_, ?_, ?_⟩
    · intro p hp
      exact (collectSimilar_mem hc p (List.mem_mergeSort.mp hp)).1
    · have hs := @List.sorted_mergeSort (String × ℝ)
        (fun p q => decide (q.2 ≤ p.2))
        (fun a b c hab hbc => by
          simp only [decide_eq_true_eq] at *
          exact le_trans hbc hab)
        (fun a b => by
          simp only [Bool.or_eq_true, decide_eq_true_eq]
          exact le_total b.2 a.2)
        l0
      exact hs.imp (fun hpq => by simpa using hpq)
    · intro t' ht'
      obtain ⟨l', hl', hsub⟩ := collectSimilar_mono ht' hc
      refine ⟨l'.mergeSort (fun p q => decide (q.2 ≤ p.2)), ?_, ?_⟩
      · rw [findSimilarEmbeddings, hl']; rfl
      · rw [List.length_mergeSort, List.length_mergeSort]
        exact hsub.length_le

/-- Witness for C7: target `[2]` against the single candidate `("a", [1])`
(cosine similarity `1`) at threshold `0.85`. -/
theorem findSimilarEmbeddings_spec_witness :
    (∀ p ∈ [("a", (1 : ℝ))], (0.85 : ℝ) ≤ p.2) ∧
    ([("a", (1 : ℝ))]).Pairwise (fun p q => q.2 ≤ p.2) ∧
    (∀ t', (0.85 : ℝ) ≤ t' →
      ∃ l', findSimilarEmbeddings [2] [("a", [1])] t' = .ok l' ∧
        l'.length ≤ ([("a", (1 : ℝ))]).length) := by
  have h2 : normList [(2 : ℝ)] = 2 := by
    have hd : dotList [(2 : ℝ)] [2] = 4 := by norm_num [dotList]
    rw [normList, hd, show (4 : ℝ) = 2 ^ 2 by norm_num,
      Real.sqrt_sq (by norm_num : (0 : ℝ) ≤ 2)]
  have h1 : normList [(1 : ℝ)] = 1 := by simp [normList, dotList]
  have hcos : calculateCosineSimilarity [(2 : ℝ)] [1] = .ok 1 := by
    rw [calculateCosineSimilarity.eq_def,
      if_neg (by simp : ¬([(2 : ℝ)].length ≠ [(1 : ℝ)].length)),
      if_neg (by rw [h2, h1]; norm_num :
        ¬(normList [(2 : ℝ)] = 0 ∨ normList [(1 : ℝ)] = 0))]
    have hd : dotList [(2 : ℝ)] [1] = 2 := by norm_num [dotList]
    rw [hd, h2, h1]
    norm_num
  have hfind : findSimilarEmbeddings [(2 : ℝ)] [("a", [1])] 0.85 = .ok [("a", 1)] := by
    rw [findSimilarEmbeddings]
    simp only [collectSimilar, hcos]
    rw [if_pos (by norm_num : (0.85 : ℝ) ≤ 1)]
    simp [Except.map, List.mergeSort_singleton]
  exact findSimilarEmbeddings_spec [2] [("a", [1])] 0.85 [("a", 1)] hfind

/-- Every result of the plate fallback is either the no-duplicate result or
the 1.0-scored duplicate naming a record of the plate store. -/
theorem checkLicensePlateOnly_shape (env : Env) (data : ConversationData) :
    checkLicensePlateOnly env data = .ok noDuplicate ∨
    ∃ m docs, env.plateStore = .ok docs ∧ m ∈ docs ∧
      checkLicensePlateOnly env data = .ok ⟨true, some 1, some m.id, true⟩ := by
  cases hp : extractLicensePlate data with
  | none => exact Or.inl (by simp only [checkLicensePlateOnly, hp])
  | some plate =>
    cases hs : env.plateStore with
    | error e =>
      exact Or.inl (by simp only [checkLicensePlateOnly, hp, findByLicensePlate, hs])
    | ok docs =>
      cases hcomp : compileAnchoredRegex (stripWs (jsToUpper plate)) with
      | none =>
        exact Or.inl
          (by simp only [checkLicensePlateOnly, hp, findByLicensePlate, hs, hcomp])
      | some rgx =>
        have hfind : findByLicensePlate env.plateStore plate =
            .ok (docs.filter (matchesPlateQuery rgx)) := by
          simp only [findByLicensePlate, hs, hcomp]
        cases hres : docs.filter (matchesPlateQuery rgx) with
        | nil =>
          exact Or.inl (by simp only [checkLicensePlateOnly, hp, hfind, hres])
        | cons m rest =>
          refine Or.inr ⟨m, docs, rfl, ?_, ?_⟩
          · exact List.mem_of_mem_filter (by rw [hres]; exact List.mem_cons_self m rest)
          · simp only [checkLicensePlateOnly, hp, hfind, hres]

/-- The plate fallback never returns an error. -/
theorem checkLicensePlateOnly_ok (env : Env) (data : ConversationData) :
    ∃ r, checkLicensePlateOnly env data = .ok r := by
  rcases checkLicensePlateOnly_shape env data with hc | ⟨m, docs, _, _, hc⟩
  · exact ⟨noDuplicate, hc⟩
  · exact ⟨⟨true, some 1, some m.id, true⟩, hc⟩

/-- Every entry of a successful ranking names one of the candidates. -/
theorem findSimilarEmbeddings_mem {target : List ℝ} {cands : List (String × List ℝ)}
    {threshold : ℝ} {l : List (String × ℝ)}
    (h : findSimilarEmbeddings target cands threshold = .ok l) {p : String × ℝ}
    (hp : p ∈ l) : ∃ c ∈ cands, p.1 = c.1 := by
  rw [findSimilarEmbeddings] at h
  cases hc : collectSimilar target threshold cands with
  | error e => rw [hc] at h; exact Except.noConfusion h
  | ok l0 =>
    rw [hc] at h
    simp only [Except.map, Except.ok.injEq] at h
    subst h
    exact (collectSimilar_mem hc p (List.mem_mergeSort.mp hp)).2

/-- Every successful outcome of the engine is the no-duplicate result, a
1.0-scored plate hit naming a plate-store record, or a semantic hit naming
a record of the candidate store. -/
theorem detectDuplicate_shape (env : Env) (data : ConversationData) :
    detectDuplicate env data = .ok noDuplicate ∨
    (∃ m docs, env.plateStore = .ok docs ∧ m ∈ docs ∧
      detectDuplicate env data = .ok ⟨true, some 1, some m.id, true⟩) ∨
    (∃ (s : ℝ) (m : Registration) (docs : List Registration), env.store = .ok docs ∧
      m ∈ docs ∧ detectDuplicate env data = .ok ⟨true, some s, some m.id, true⟩) := by
  have hlift : detectDuplicate env data = checkLicensePlateOnly env data →
      (detectDuplicate env data = .ok noDuplicate ∨
       (∃ m docs, env.plateStore = .ok docs ∧ m ∈ docs ∧
         detectDuplicate env data = .ok ⟨true, some 1, some m.id, true⟩) ∨
       (∃ (s : ℝ) (m : Registration) (docs : List Registration), env.store = .ok docs ∧
         m ∈ docs ∧ detectDuplicate env data = .ok ⟨true, some s, some m.id, true⟩)) := by
    intro heq
    rcases checkLicensePlateOnly_shape env data with hc | ⟨m, docs, h1, h2, h3⟩
    · exact Or.inl (heq.trans hc)
    · exact Or.inr (Or.inl ⟨m, docs, h1, h2, heq.trans h3⟩)
  cases he : env.embedResult with
  | error e => exact hlift (by simp only [detectDuplicate, he])
  | ok newVector =>
    have hEstore : (∃ e, env.store = .error e) ∨ (∃ docs, env.store = .ok docs) := by
      cases env.store with
      | error e => exact Or.inl ⟨e, rfl⟩
      | ok docs => exact Or.inr ⟨docs, rfl⟩
    rcases hEstore with ⟨e, hs⟩ | ⟨docs, hs⟩
    · exact hlift (by simp only [detectDuplicate, he, getAllRegistrationsWithEmbeddings, hs])
    · have hget : getAllRegistrationsWithEmbeddings env.store =
          .ok (docs.filter fun r => r.embedding.isSome) := by
        simp only [getAllRegistrationsWithEmbeddings, hs]
      by_cases hlen : (docs.filter fun r => r.embedding.isSome).length = 0
      · refine Or.inl ?_
        simp only [detectDuplicate, he, hget]
        rw [if_pos hlen]
      · by_cases hclen : (((docs.filter fun r => r.embedding.isSome).filter
            hasNonemptyVector).map (fun r => (r.id, vectorOf r))).length > 0
        · cases hfind : findSimilarEmbeddings newVector
              (((docs.filter fun r => r.embedding.isSome).filter hasNonemptyVector).map
                (fun r => (r.id, vectorOf r))) env.similarityThreshold with
          | error e =>
            refine hlift ?_
            simp only [detectDuplicate, he, hget]
            rw [if_neg hlen, if_pos hclen, hfind]
          | ok lres =>
            cases lres with
            | nil =>
              refine hlift ?_
              simp only [detectDuplicate, he, hget]
              rw [if_neg hlen, if_pos hclen, hfind]
            | cons p rest =>
              obtain ⟨c, hcmem, hpc⟩ := findSimilarEmbeddings_mem hfind
                (List.mem_cons_self p rest)
              obtain ⟨m, hmfil, hmc⟩ := List.mem_map.mp hcmem
              refine Or.inr (Or.inr ⟨p.2, m, docs, hs, ?_, ?_⟩)
              · exact List.mem_of_mem_filter (List.mem_of_mem_filter hmfil)
              · have hid : p.1 = m.id := by rw [hpc, ← hmc]
                simp only [detectDuplicate, he, hget]
                rw [if_neg hlen, if_pos hclen, hfind, ← hid]
        · refine hlift ?_
          simp only [detectDuplicate, he, hget]
          rw [if_neg hlen, if_neg hclen]

/-- C2 counterexample: with a 1-dimensional query vector and a lone stored
2-dimensional candidate, the Scorer raises the dimension-mismatch error
inside `detectDuplicate`, yet the call returns the plain no-duplicate
result: the error is absorbed by the outer handler and coerced into a
"no duplicate" outcome instead of propagating to the caller. -/
theorem dimensionMismatch_absorbed_cex :
    calculateCosineSimilarity [(1 : ℝ)] [1, 0] =
      .error "Vectors must have the same dimension" ∧
    findSimilarEmbeddings [(1 : ℝ)] [("existing-1", [1, 0])]
      envMismatch.similarityThreshold = .error "Vectors must have the same dimension" ∧
    detectDuplicate envMismatch {} = .ok noDuplicate :=
  ⟨rfl, rfl, rfl⟩

/-- C2 (amended): when the Scorer raises a dimension mismatch inside a
`detectDuplicate` call, the outer handler catches it and the call falls
back to the exact-plate check, still returning a well-formed result; the
error never propagates to the caller. -/
theorem dimensionMismatch_fallback (env : Env) (data : ConversationData)
    (v : List ℝ) (regs : List Registration) (e : String)
    (hv : env.embedResult = .ok v)
    (hregs : getAllRegistrationsWithEmbeddings env.store = .ok regs)
    (herr : findSimilarEmbeddings v ((regs.filter hasNonemptyVector).map
        (fun r => (r.id, vectorOf r))) env.similarityThreshold = .error e) :
    detectDuplicate env data = checkLicensePlateOnly env data ∧
    ∃ res, detectDuplicate env data = .ok res := by
  have hcne : ((regs.filter hasNonemptyVector).map (fun r => (r.id, vectorOf r))) ≠ [] := by
    intro hc
    rw [hc] at herr
    simp [findSimilarEmbeddings, collectSimilar, Except.map] at herr
  have hrne : regs.length ≠ 0 := by
    intro h0
    rw [List.length_eq_zero.mp h0] at hcne
    simp at hcne
  have hclen : ((regs.filter hasNonemptyVector).map (fun r => (r.id, vectorOf r))).length > 0 :=
    List.length_pos.mpr hcne
  have heq : detectDuplicate env data = checkLicensePlateOnly env data := by
    simp only [detectDuplicate, hv, hregs]
    rw [if_neg hrne, if_pos hclen, herr]
  obtain ⟨res, hres⟩ := checkLicensePlateOnly_ok env data
  exact ⟨heq, res, heq.trans hres⟩

/-- Witness for C2's amended theorem on `envMismatch`. -/
theorem dimensionMismatch_fallback_witness :
    detectDuplicate envMismatch {} = checkLicensePlateOnly envMismatch {} ∧
    ∃ res, detectDuplicate envMismatch {} = .ok res :=
  dimensionMismatch_fallback envMismatch {} [1] [mismatchRegistration]
    "Vectors must have the same dimension" rfl rfl rfl

/-- C3: on any embedding-gateway failure, `detectDuplicate` transitions
directly to the exact-plate fallback and still returns a well-formed
result, propagating no error to the caller. -/
theorem embeddingFailure_fallback (env : Env) (data : ConversationData) (e : String)
    (h : env.embedResult = .error e) :
    detectDuplicate env data = checkLicensePlateOnly env data ∧
    ∃ r, detectDuplicate env data = .ok r := by
  have heq : detectDuplicate env data = checkLicensePlateOnly env data := by
    simp only [detectDuplicate, h]
  obtain ⟨r, hr⟩ := checkLicensePlateOnly_ok env data
  exact ⟨heq, r, heq.trans hr⟩

/-- Witness for C3 on `envEmbedFail`. -/
theorem embeddingFailure_fallback_witness :
    detectDuplicate envEmbedFail plateQueryRec =
      checkLicensePlateOnly envEmbedFail plateQueryRec ∧
    ∃ r, detectDuplicate envEmbedFail plateQueryRec = .ok r :=
  embeddingFailure_fallback envEmbedFail plateQueryRec "gateway timeout" rfl

/-- C4 counterexample against the two-sided, literal reading of the exact
match: stored plate `"AB 12"` and query `"ab 12"` denote the same plate up
to case and whitespace, yet the lookup — which strips whitespace from the
query key only — finds no match and the fallback reports no duplicate;
conversely the metacharacter query `"A.1"` matches the stored plate
`"AB1"`, which literal exact matching would reject; and the invalid
pattern `"A("` makes the lookup fail, absorbed into the no-duplicate
result. -/
theorem plateMatch_one_sided_cex :
    findByLicensePlate (.ok [spacedPlateRegistration]) "ab 12" = .ok [] ∧
    checkLicensePlateOnly envSpacedPlate plateQueryRec = .ok noDuplicate ∧
    findByLicensePlate (.ok [dotPlateRegistration]) "A.1" = .ok [dotPlateRegistration] ∧
    findByLicensePlate (.ok [dotPlateRegistration]) "A(" =
      .error "Failed to find registration by license plate" ∧
    checkLicensePlateOnly envParenPlate parenPlateQuery = .ok noDuplicate :=
  ⟨rfl, rfl, rfl, rfl, rfl⟩

/-- C4 (amended): the plate fallback never returns an error; it returns the
no-duplicate result when no plate is extracted, when the lookup finds no
match, or when the lookup itself fails (including a plate that is an
invalid pattern), and the 1.0-scored duplicate naming the first match
otherwise; the lookup filters the store with the anchored case-insensitive
regex compiled from the uppercased, whitespace-stripped query key — stored
values are not whitespace-normalized and metacharacters in the key are
interpreted; extraction prefers the nested `car.license_plate`; and plate
queries equal up to case and whitespace produce identical lookups. -/
theorem checkLicensePlateOnly_spec (env : Env) (data : ConversationData) :
    (∃ r, checkLicensePlateOnly env data = .ok r) ∧
    (extractLicensePlate data = none → checkLicensePlateOnly env data = .ok noDuplicate) ∧
    (∀ plate m rest, extractLicensePlate data = some plate →
      findByLicensePlate env.plateStore plate = .ok (m :: rest) →
      checkLicensePlateOnly env data = .ok ⟨true, some 1, some m.id, true⟩) ∧
    (∀ plate, extractLicensePlate data = some plate →
      findByLicensePlate env.plateStore plate = .ok [] →
      checkLicensePlateOnly env data = .ok noDuplicate) ∧
    (∀ plate e, extractLicensePlate data = some plate →
      findByLicensePlate env.plateStore plate = .error e →
      checkLicensePlateOnly env data = .ok noDuplicate) ∧
    (∀ docs plate rgx, env.plateStore = .ok docs →
      compileAnchoredRegex (stripWs (jsToUpper plate)) = some rgx →
      findByLicensePlate env.plateStore plate =
        .ok (docs.filter (matchesPlateQuery rgx))) ∧
    (∀ docs plate, env.plateStore = .ok docs →
      compileAnchoredRegex (stripWs (jsToUpper plate)) = none →
      findByLicensePlate env.plateStore plate =
        .error "Failed to find registration by license plate") ∧
    (∀ car plate, data.car = some car → car.license_plate = some plate → plate ≠ "" →
      extractLicensePlate data = some plate) ∧
    (∀ p q, stripWs (jsToUpper p) = stripWs (jsToUpper q) →
      findByLicensePlate env.plateStore p = findByLicensePlate env.plateStore q) := by
  refine ⟨checkLicensePlateOnly_ok env data, ?_, ?_, ?_, ?_, ?_, ?_, ?_, ?_⟩
  · intro hp
    simp only [checkLicensePlateOnly, hp]
  · intro plate m rest hp hf
    simp only [checkLicensePlateOnly, hp, hf]
  · intro plate hp hf
    simp only [checkLicensePlateOnly, hp, hf]
  · intro plate e hp hf
    simp only [checkLicensePlateOnly, hp, hf]
  · intro docs plate rgx hps hcomp
    simp only [findByLicensePlate, hps, hcomp]
  · intro docs plate hps hcomp
    simp only [findByLicensePlate, hps, hcomp]
  · intro car plate hcar hplate hne
    simp [extractLicensePlate, jsOr, truthy, hcar, hplate, hne]
  · intro p q hpq
    cases hps : env.plateStore with
    | error e => simp only [findByLicensePlate]
    | ok docs =>
      simp only [findByLicensePlate]
      rw [hpq]

/-- Witness for C4: the record with flat plate `"ab 12"` matched against the
stored plate `"AB12"`. -/
theorem checkLicensePlateOnly_spec_witness :
    checkLicensePlateOnly envEmbedFail plateQueryRec =
      .ok ⟨true, some 1, some plateRegistration.id, true⟩ :=
  (checkLicensePlateOnly_spec envEmbedFail plateQueryRec).2.2.1 "ab 12" plateRegistration []
    rfl rfl

/-- C9: when the set of stored candidates carrying an embedding is empty,
`detectDuplicate` returns the no-duplicate result immediately — for every
plate store and record, so the exact-match fallback is not consulted — and
the empty corpus is not treated as an error. -/
theorem emptyCorpus_noDuplicate (env : Env) (data : ConversationData) (v : List ℝ)
    (hv : env.embedResult = .ok v)
    (hempty : getAllRegistrationsWithEmbeddings env.store = .ok []) :
    detectDuplicate env data = .ok noDuplicate := by
  simp [detectDuplicate, hv, hempty]

/-- Witness for C9 on `envEmptyCorpus`, whose plate store holds a record
matching `plateQueryRec`'s plate: the fallback alone would report a
duplicate, but the empty corpus short-circuits before it. -/
theorem emptyCorpus_noDuplicate_witness :
    detectDuplicate envEmptyCorpus plateQueryRec = .ok noDuplicate ∧
    checkLicensePlateOnly envEmptyCorpus plateQueryRec =
      .ok ⟨true, some 1, some plateRegistration.id, true⟩ :=
  ⟨emptyCorpus_noDuplicate envEmptyCorpus plateQueryRec [1] rfl rfl, rfl⟩

/-- C10: every successful `detectDuplicate` result has `isDuplicate` equal
to `requiresConfirmation`, and `isDuplicate` holds exactly when both the
similarity score and the existing-registration id are present. -/
theorem detectDuplicate_result_invariant (env : Env) (data : ConversationData)
    (r : DuplicateDetectionResult) (h : detectDuplicate env data = .ok r) :
    r.isDuplicate = r.requiresConfirmation ∧
    (r.isDuplicate = true ↔
      (r.similarityScore.isSome ∧ r.existingRegistrationId.isSome)) := by
  rcases detectDuplicate_shape env data with hc | ⟨m, docs, _, _, hc⟩ | ⟨s, m, docs, _, _, hc⟩ <;>
  · rw [h] at hc
    injection hc with hr
    subst hr
    simp [noDuplicate]

/-- Witness for C10 at `envMismatch` with the empty record. -/
theorem detectDuplicate_result_invariant_witness :
    noDuplicate.isDuplicate = noDuplicate.requiresConfirmation ∧
    (noDuplicate.isDuplicate = true ↔
      (noDuplicate.similarityScore.isSome ∧ noDuplicate.existingRegistrationId.isSome)) :=
  detectDuplicate_result_invariant envMismatch {} noDuplicate rfl

/-- C1: any successful `detectDuplicate` result carries, beyond booleans and
the numeric score, only an opaque identifier — its id field is `none` or
the id of a stored registration, never a value built from record fields —
and `generateConfirmationMessage` is a fixed parameterless string that
interpolates no record data. -/
theorem detectDuplicate_privacy (env : Env) (data : ConversationData)
    (r : DuplicateDetectionResult) (h : detectDuplicate env data = .ok r) :
    (r.existingRegistrationId = none ∨
      ∃ reg : Registration,
        ((∃ docs, env.store = .ok docs ∧ reg ∈ docs) ∨
         (∃ docs, env.plateStore = .ok docs ∧ reg ∈ docs)) ∧
        r.existingRegistrationId = some reg.id) ∧
    generateConfirmationMessage =
      "A similar registration was found in our system. Would you like to update the existing information? Please confirm by saying \"yes\" or \"confirm\"." := by
  refine ⟨?_, rfl⟩
  rcases detectDuplicate_shape env data with hc | ⟨m, docs, h1, h2, hc⟩ | ⟨s, m, docs, h1, h2, hc⟩
  · rw [h] at hc
    injection hc with hr
    subst hr
    exact Or.inl rfl
  · rw [h] at hc
    injection hc with hr
    subst hr
    exact Or.inr ⟨m, Or.inr ⟨docs, h1, h2⟩, rfl⟩
  · rw [h] at hc
    injection hc with hr
    subst hr
    exact Or.inr ⟨m, Or.inl ⟨docs, h1, h2⟩, rfl⟩

/-- Witness for C1 on `envEmbedFail`: the fallback hit returns exactly the
stored record's id. -/
theorem detectDuplicate_privacy_witness :
    ((⟨true, some 1, some plateRegistration.id, true⟩ :
        DuplicateDetectionResult).existingRegistrationId = none ∨
      ∃ reg : Registration,
        ((∃ docs, envEmbedFail.store = .ok docs ∧ reg ∈ docs) ∨
         (∃ docs, envEmbedFail.plateStore = .ok docs ∧ reg ∈ docs)) ∧
        (⟨true, some 1, some plateRegistration.id, true⟩ :
          DuplicateDetectionResult).existingRegistrationId = some reg.id) ∧
    generateConfirmationMessage =
      "A similar registration was found in our system. Would you like to update the existing information? Please confirm by saying \"yes\" or \"confirm\"." :=
  detectDuplicate_privacy envEmbedFail plateQueryRec
    ⟨true, some 1, some plateRegistration.id, true⟩ rfl
